import Mathlib

/-
Verification development for the kubicle library (cluster.go, docker.go).

The Go code is shallowly embedded: every exported operation that talks to
the Docker daemon or the kind provisioning engine is modelled as a pure
function over an explicit environment recording the outcomes of those
external calls, and over an explicit world state (existing clusters,
existing containers, scratch files).  Traces of the external calls a
function issues are returned alongside its result, so that claims about
which operations run, and in which order, can be stated directly.
-/

namespace Kubicle

/-- Go `error` values as they flow through this library: a primitive
message (an error produced by an external system), a wrapping via
`fmt.Errorf("...: %w", err)`, or the context deadline error. -/
inductive Err where
  | msg (s : String)
  | wrap (outer : String) (inner : Err)
  | deadlineExceeded
deriving DecidableEq, Repr

/-! ## Build Context Streamer: `tarDirectory` (docker.go)

Paths and file names are modelled as `List Char` (Go strings are byte
sequences; all paths here are ASCII).  The filesystem under the root
directory is a finitely branching tree, given as a mutual inductive so
that walk functions and induction proofs stay structural. -/

/-- The path separator, `os.PathSeparator` on the target platform. -/
def sep : List Char := ['/']

/-- Go `strings.TrimPrefix s p`: drop `p` from the front of `s` when `s`
starts with `p`, otherwise return `s` unchanged. -/
def trimPrefixChars (s p : List Char) : List Char :=
  if p.isPrefixOf s then s.drop p.length else s

mutual

/-- A node of the directory tree handed to `filepath.WalkDir`. -/
inductive FSNode where
  | file (name : List Char)
  | dir (name : List Char) (children : FSForest)

/-- The ordered children of a directory (`WalkDir` visits them in order). -/
inductive FSForest where
  | nil
  | cons (head : FSNode) (tail : FSForest)

end

/-- The name of a node, as it appears as a path component. -/
def FSNode.name : FSNode → List Char
  | .file n => n
  | .dir n _ => n

/-- Per-path failure oracles for the walk: the `err` argument passed to
the `WalkDir` callback, `d.Info()`, `tar.FileInfoHeader`,
`tw.WriteHeader`, `os.Open` and `io.Copy` respectively.  `none` means
the corresponding call succeeds at that path. -/
structure WalkOps where
  entryErr : List Char → Option Err
  infoErr : List Char → Option Err
  headerErr : List Char → Option Err
  writeHeaderErr : List Char → Option Err
  openErr : List Char → Option Err
  readErr : List Char → Option Err

/-- The oracle under which every filesystem operation succeeds. -/
def noErrOps : WalkOps :=
  ⟨fun _ => none, fun _ => none, fun _ => none, fun _ => none, fun _ => none, fun _ => none⟩

/-- The path `filepath.Join(parent, n.name)` of a child node (parents
here never carry a trailing separator, so `Join` is plain appending). -/
def childPath (parent : List Char) (n : FSNode) : List Char :=
  parent ++ sep ++ n.name

mutual

/-- The body of `tarDirectory`'s producer goroutine: the `WalkDir`
callback run over a node sitting at `path`.  It returns the archive
entry names written so far (one per regular file, directories are
skipped) and the error, if any, with which the walk stopped — the value
`walkErr` that the deferred `pw.CloseWithError(walkErr)` receives.
Entry names are computed exactly as in the source: the `dirPath` prefix
and then a leading separator are trimmed off the visited path. -/
def tarWalkNode (ops : WalkOps) (dirPath path : List Char) :
    FSNode → List (List Char) × Option Err
  | .file _ =>
    match ops.entryErr path with
    | some e => ([], some e)
    | none =>
      match ops.infoErr path with
      | some e => ([], some e)
      | none =>
        match ops.headerErr path with
        | some e => ([], some e)
        | none =>
          match ops.writeHeaderErr path with
          | some e => ([], some e)
          | none =>
            match ops.openErr path with
            | some e => ([], some e)
            | none =>
              match ops.readErr path with
              | some e => ([], some e)
              | none => ([trimPrefixChars (trimPrefixChars path dirPath) sep], none)
  | .dir _ cs =>
    match ops.entryErr path with
    | some e => ([], some e)
    | none => tarWalkForest ops dirPath path cs

/-- The walk over the children of the directory at `parent`; the first
error aborts the remaining siblings, as `filepath.WalkDir` does when the
callback returns a non-nil error. -/
def tarWalkForest (ops : WalkOps) (dirPath parent : List Char) :
    FSForest → List (List Char) × Option Err
  | .nil => ([], none)
  | .cons c cs =>
    match tarWalkNode ops dirPath (childPath parent c) c with
    | (es, some e) => (es, some e)
    | (es, none) =>
      match tarWalkForest ops dirPath parent cs with
      | (es2, r2) => (es ++ es2, r2)

end

mutual

/-- The first error the walk encounters at or below a node at `path`,
independently of the archive bookkeeping. -/
def firstWalkError (ops : WalkOps) (path : List Char) : FSNode → Option Err
  | .file _ =>
    (ops.entryErr path).orElse fun _ =>
      (ops.infoErr path).orElse fun _ =>
        (ops.headerErr path).orElse fun _ =>
          (ops.writeHeaderErr path).orElse fun _ =>
            (ops.openErr path).orElse fun _ => ops.readErr path
  | .dir _ cs =>
    (ops.entryErr path).orElse fun _ => firstWalkErrorForest ops path cs

/-- The first error among the children of the directory at `parent`. -/
def firstWalkErrorForest (ops : WalkOps) (parent : List Char) : FSForest → Option Err
  | .nil => none
  | .cons c cs =>
    (firstWalkError ops (childPath parent c) c).orElse fun _ =>
      firstWalkErrorForest ops parent cs

end

mutual

/-- Specification-side description of the archive contents: the
tree-relative path of every regular file below a node whose own
relative path is `rel`, in walk order; directories contribute no entry
of their own. -/
def relPaths (rel : List Char) : FSNode → List (List Char)
  | .file _ => [rel]
  | .dir _ cs => relPathsForest rel cs

/-- Relative paths of the regular files below the children of a
directory whose relative path is `rel`. -/
def relPathsForest (rel : List Char) : FSForest → List (List Char)
  | .nil => []
  | .cons c cs => relPaths (rel ++ sep ++ c.name) c ++ relPathsForest rel cs

end

/-- Relative paths of the regular files below the root's children: a
top-level child's relative path is just its own name. -/
def topRelPaths : FSForest → List (List Char)
  | .nil => []
  | .cons c cs => relPaths c.name c ++ topRelPaths cs

/-- `tarDirectory(dirPath)`: the function itself returns the reader and
a `nil` error unconditionally (first component `none`); everything that
can go wrong surfaces only on the returned stream, modelled as the pair
of the entries the consumer reads and the terminal value it then
observes (`none` = clean EOF from `CloseWithError(nil)`, `some e` = the
walk error delivered by `CloseWithError(walkErr)`). -/
def tarDirectory (ops : WalkOps) (dirPath : List Char) (root : FSNode) :
    Option Err × (List (List Char) × Option Err) :=
  (none, tarWalkNode ops dirPath dirPath root)

theorem trimPrefixChars_append (p x : List Char) : trimPrefixChars (p ++ x) p = x := by
  have hp : p.isPrefixOf (p ++ x) = true := by
    rw [List.isPrefixOf_iff_prefix]
    exact List.prefix_append p x
  simp [trimPrefixChars, hp]

theorem tarEntryName_eq (d r : List Char) :
    trimPrefixChars (trimPrefixChars (d ++ sep ++ r) d) sep = r := by
  rw [List.append_assoc, trimPrefixChars_append, trimPrefixChars_append]

mutual

theorem tarWalkNode_noErr (d rel : List Char) :
    ∀ c : FSNode, tarWalkNode noErrOps d (d ++ sep ++ rel) c = (relPaths rel c, none)
  | .file n => by
    simp only [tarWalkNode, noErrOps, relPaths]
    rw [tarEntryName_eq]
  | .dir n cs => by
    simpa [tarWalkNode, noErrOps, relPaths] using tarWalkForest_noErr d rel cs

theorem tarWalkForest_noErr (d rel : List Char) :
    ∀ cs : FSForest, tarWalkForest noErrOps d (d ++ sep ++ rel) cs = (relPathsForest rel cs, none)
  | .nil => by simp [tarWalkForest, relPathsForest]
  | .cons c cs => by
    have hpath : childPath (d ++ sep ++ rel) c = d ++ sep ++ (rel ++ sep ++ c.name) := by
      simp [childPath, List.append_assoc]
    have h1 : tarWalkNode noErrOps d (childPath (d ++ sep ++ rel) c) c
        = (relPaths (rel ++ sep ++ c.name) c, none) := by
      rw [hpath]; exact tarWalkNode_noErr d (rel ++ sep ++ c.name) c
    have h2 := tarWalkForest_noErr d rel cs
    simp only [tarWalkForest, h1, h2, relPathsForest]

end

theorem tarWalkForest_noErr_top (d : List Char) :
    ∀ cs : FSForest, tarWalkForest noErrOps d d cs = (topRelPaths cs, none)
  | .nil => by simp [tarWalkForest, topRelPaths]
  | .cons c cs => by
    have h1 : tarWalkNode noErrOps d (childPath d c) c = (relPaths c.name c, none) :=
      tarWalkNode_noErr d c.name c
    have h2 := tarWalkForest_noErr_top d cs
    simp [tarWalkForest, h1, h2, topRelPaths]

mutual

theorem tarWalkNode_snd (ops : WalkOps) (d p : List Char) :
    ∀ c : FSNode, (tarWalkNode ops d p c).2 = firstWalkError ops p c
  | .file n => by
    cases h1 : ops.entryErr p <;>
      cases h2 : ops.infoErr p <;>
        cases h3 : ops.headerErr p <;>
          cases h4 : ops.writeHeaderErr p <;>
            cases h5 : ops.openErr p <;>
              cases h6 : ops.readErr p <;>
                simp [tarWalkNode, firstWalkError, Option.orElse, h1, h2, h3, h4, h5, h6]
  | .dir n cs => by
    cases h1 : ops.entryErr p with
    | some e => simp [tarWalkNode, firstWalkError, Option.orElse, h1]
    | none =>
      simpa [tarWalkNode, firstWalkError, Option.orElse, h1] using
        tarWalkForest_snd ops d p cs

theorem tarWalkForest_snd (ops : WalkOps) (d parent : List Char) :
    ∀ cs : FSForest, (tarWalkForest ops d parent cs).2 = firstWalkErrorForest ops parent cs
  | .nil => by simp [tarWalkForest, firstWalkErrorForest]
  | .cons c cs => by
    have hn := tarWalkNode_snd ops d (childPath parent c) c
    have hf := tarWalkForest_snd ops d parent cs
    cases hw : tarWalkNode ops d (childPath parent c) c with
    | mk es r =>
      rw [hw] at hn
      cases r with
      | some e =>
        simp [tarWalkForest, hw, firstWalkErrorForest, ← hn, Option.orElse]
      | none =>
        cases hw2 : tarWalkForest ops d parent cs with
        | mk es2 r2 =>
          rw [hw2] at hf
          simp [tarWalkForest, hw, hw2, firstWalkErrorForest, ← hn, ← hf, Option.orElse]

end

/-- The example tree from the spec: a root directory holding `a.txt` and
`sub/b.txt`. -/
def exTree : FSNode :=
  .dir "ctx".toList
    (.cons (.file "a.txt".toList)
      (.cons (.dir "sub".toList (.cons (.file "b.txt".toList) .nil)) .nil))

/-- An oracle under which opening `ctx/sub/b.txt` fails mid-walk. -/
def exOps : WalkOps :=
  { noErrOps with
    openErr := fun p => if p = "ctx/sub/b.txt".toList then some (.msg "permission denied") else none }

/-- C4: streaming a root directory emits exactly one archive entry per
regular file (`relPaths`/`topRelPaths` list exactly one name per file and
none for directories), each named by the file's path with the root-path
prefix and the leading separator stripped; in particular a tree holding
`a.txt` and `sub/b.txt` yields entries named exactly `a.txt` and
`sub/b.txt`. -/
theorem tarDirectory_entry_names (d n : List Char) (cs : FSForest) :
    (tarDirectory noErrOps d (.dir n cs)).2 = (topRelPaths cs, none) ∧
    (tarDirectory noErrOps "ctx".toList exTree).2 =
      (["a.txt".toList, "sub/b.txt".toList], none) := by
  constructor
  · simpa [tarDirectory, tarWalkNode, noErrOps] using tarWalkForest_noErr_top d cs
  · decide

/-- C5: whenever the walk behind `tarDirectory` hits an error — a
directory-entry error, a stat failure, a header failure, an open failure
or a read failure — the consumer side of the pipe observes exactly that
error as the stream's terminal value, never a clean EOF. -/
theorem tarDirectory_propagates_walk_error (ops : WalkOps) (d : List Char)
    (root : FSNode) (e : Err) (h : firstWalkError ops d root = some e) :
    (tarDirectory ops d root).2.2 = some e ∧ (tarDirectory ops d root).2.2 ≠ none := by
  have hs : (tarDirectory ops d root).2.2 = firstWalkError ops d root :=
    tarWalkNode_snd ops d d root
  rw [hs, h]
  exact ⟨rfl, by simp⟩

theorem tarDirectory_propagates_walk_error_witness :
    (tarDirectory exOps "ctx".toList exTree).2.2 = some (.msg "permission denied") ∧
    (tarDirectory exOps "ctx".toList exTree).2.2 ≠ none :=
  tarDirectory_propagates_walk_error exOps "ctx".toList exTree
    (.msg "permission denied") (by decide)

/-- C10: the `tarDirectory` call itself never reports a failure — it
returns the stream with a `nil` error for every input, even a
nonexistent or unreadable root — and every walk failure is observable
only as the terminal error of the returned stream. -/
theorem tarDirectory_call_never_fails (ops : WalkOps) (d : List Char) (root : FSNode) :
    (tarDirectory ops d root).1 = none ∧
    (tarDirectory ops d root).2.2 = firstWalkError ops d root :=
  ⟨rfl, tarWalkNode_snd ops d d root⟩

/-! ## `PushImage` (docker.go): fixed registry authentication -/

/-- The RFC 4648 standard base64 alphabet, as used by Go's
`base64.StdEncoding`. -/
def base64Table : List Char :=
  "ABCDEFGHIJKLMNOPQRSTUVWXYZabcdefghijklmnopqrstuvwxyz0123456789+/".toList

/-- The alphabet character for a 6-bit group. -/
def b64Char (n : Nat) : Char := base64Table.getD n 'A'

/-- Go `base64.StdEncoding.EncodeToString` over a byte list, with `=`
padding. -/
def base64Encode : List Nat → List Char
  | [] => []
  | [b1] => [b64Char (b1 / 4), b64Char (b1 % 4 * 16), '=', '=']
  | [b1, b2] => [b64Char (b1 / 4), b64Char (b1 % 4 * 16 + b2 / 16), b64Char (b2 % 16 * 4), '=']
  | b1 :: b2 :: b3 :: rest =>
    b64Char (b1 / 4) :: b64Char (b1 % 4 * 16 + b2 / 16) ::
      b64Char (b2 % 16 * 4 + b3 / 64) :: b64Char (b3 % 64) :: base64Encode rest

/-- Go `json.Marshal` of the anonymous credentials struct in
`PushImage`, whose two fields carry the tags `username` and `password`
(faithful for field values that need no JSON escaping; the source only
ever marshals the zero value, i.e. two empty strings). -/
def jsonMarshalCredentials (username password : String) : String :=
  "\x7b\"username\":\"" ++ username ++ "\",\"password\":\"" ++ password ++ "\"\x7d"

/-- The wire-visible part of a `cli.ImagePush` call. -/
structure PushImageCall where
  ref : String
  registryAuth : String
deriving DecidableEq, Repr

/-- `PushImage(ctx, name)`: marshal the zero-valued credentials struct,
base64-encode it, and push `name` with that as `RegistryAuth`. -/
def pushImageRequest (name : String) : PushImageCall :=
  let credentialsJSON := jsonMarshalCredentials "" ""
  let credentialsJSONBase64 :=
    String.mk (base64Encode (credentialsJSON.toList.map Char.toNat))
  ⟨name, credentialsJSONBase64⟩

/-- C9: every `PushImage` call pushes with the one fixed
`RegistryAuth` value — the base64 encoding of the JSON object with an
empty username and an empty password — independently of the image
reference; no caller-supplied credential enters the call. -/
theorem pushImage_fixed_auth (name : String) :
    (pushImageRequest name).ref = name ∧
    (pushImageRequest name).registryAuth =
      String.mk (base64Encode ((jsonMarshalCredentials "" "").toList.map Char.toNat)) ∧
    (pushImageRequest name).registryAuth = "eyJ1c2VybmFtZSI6IiIsInBhc3N3b3JkIjoiIn0=" := by
  have h : String.mk (base64Encode ((jsonMarshalCredentials "" "").toList.map Char.toNat)) =
      "eyJ1c2VybmFtZSI6IiIsInBhc3N3b3JkIjoiIn0=" := by decide
  exact ⟨rfl, rfl, h⟩

/-! ## `WaitForContainerReady` (docker.go) -/

/-- `1 * time.Minute` in nanoseconds (`time.Duration` is an int64 count
of nanoseconds). -/
def oneMinute : Int := 60000000000

/-- Environment for a `WaitForContainerReady` call: whether the Docker
client is available, whether the container reports healthy within a
given window (monotonicity is not needed for the claims), and the
`resp.Error` field of a delivered wait response. -/
structure WaitEnv where
  clientErr : Option Err
  healthyWithin : Int → Bool
  respErrMsg : Option String

/-- `WaitForContainerReady(ctx, timeout, containerID)`: a zero timeout
is replaced by one minute; the wait then either delivers a response
within the context window (success, or the response's own error) or the
deadline expires and the error channel delivers the context's deadline
error, wrapped. -/
def waitForContainerReady (env : WaitEnv) (timeout : Int) (_containerID : String) : Option Err :=
  match env.clientErr with
  | some e => some e
  | none =>
    let timeout := if timeout = 0 then oneMinute else timeout
    if env.healthyWithin timeout then
      match env.respErrMsg with
      | some m => some (.msg ("container exited with error: " ++ m))
      | none => none
    else
      some (.wrap "failed to wait for container" .deadlineExceeded)

/-- C8: `WaitForContainerReady` with a zero timeout behaves identically
to the same call with a one-minute timeout, and when the container does
not become healthy within that window the call returns the wrapped
deadline error instead of blocking. -/
theorem waitForContainerReady_zero_timeout (env : WaitEnv) (containerID : String) :
    waitForContainerReady env 0 containerID = waitForContainerReady env oneMinute containerID ∧
    (env.clientErr = none → env.healthyWithin oneMinute = false →
      waitForContainerReady env 0 containerID =
        some (.wrap "failed to wait for container" .deadlineExceeded)) := by
  constructor
  · have h : oneMinute = (0 : Int) ↔ False := by simp [oneMinute]
    cases env.clientErr <;> simp [waitForContainerReady, h]
  · intro hc hh
    simp [waitForContainerReady, hc, hh]

/-- A wait environment in which the container never reports healthy. -/
def neverHealthyEnv : WaitEnv := ⟨none, fun _ => false, none⟩

theorem waitForContainerReady_zero_timeout_witness :
    waitForContainerReady neverHealthyEnv 0 "cid" =
      waitForContainerReady neverHealthyEnv oneMinute "cid" ∧
    waitForContainerReady neverHealthyEnv 0 "cid" =
      some (.wrap "failed to wait for container" .deadlineExceeded) :=
  ⟨(waitForContainerReady_zero_timeout neverHealthyEnv "cid").1,
   (waitForContainerReady_zero_timeout neverHealthyEnv "cid").2 rfl rfl⟩

/-! ## `PushImageToClusterRegistry` (docker.go) -/

/-- The external calls the publish pipeline can issue. -/
inductive PushOp where
  | tarDir (dir : String)
  | build (tag : String)
  | push (tag : String)
  | deleteImage (tag : String)
deriving DecidableEq, Repr

/-- Failure oracles for the three daemon-backed phases of the pipeline
(`tarDirectory` itself never fails, see
`tarDirectory_call_never_fails`). -/
structure PushEnv where
  buildErr : Option Err
  pushErr : Option Err
  deleteErr : Option Err

/-- `PushImageToClusterRegistry(ctx, imageName, contextDir)`: stream the
context, build `localhost:5000/<imageName>`, push that same tag, then
delete the local copy; the first failing phase wraps its error and
aborts the rest. -/
def pushImageToClusterRegistry (env : PushEnv) (imageName contextDir : String) :
    List PushOp × Option Err :=
  let registryImage := "localhost:5000/" ++ imageName
  match env.buildErr with
  | some e => ([.tarDir contextDir, .build registryImage],
      some (.wrap "failed to build image" e))
  | none =>
    match env.pushErr with
    | some e => ([.tarDir contextDir, .build registryImage, .push registryImage],
        some (.wrap "failed to push image to cluster registry" e))
    | none =>
      match env.deleteErr with
      | some e => ([.tarDir contextDir, .build registryImage, .push registryImage,
          .deleteImage registryImage],
          some (.wrap "failed to delete image from local docker" e))
      | none => ([.tarDir contextDir, .build registryImage, .push registryImage,
          .deleteImage registryImage], none)

/-- C6: the publish pipeline streams the context then builds, pushes and
deletes the tag `localhost:5000/<imageName>` in that order; a build
failure aborts push and delete, a push failure aborts delete, each
failure is wrapped with its phase, and a delete failure after a
successful push still fails the overall call. -/
theorem pushImageToClusterRegistry_pipeline (img dir : String) (e : Err) :
    pushImageToClusterRegistry ⟨none, none, none⟩ img dir =
      ([.tarDir dir, .build ("localhost:5000/" ++ img), .push ("localhost:5000/" ++ img),
        .deleteImage ("localhost:5000/" ++ img)], none) ∧
    pushImageToClusterRegistry ⟨some e, none, none⟩ img dir =
      ([.tarDir dir, .build ("localhost:5000/" ++ img)],
        some (.wrap "failed to build image" e)) ∧
    pushImageToClusterRegistry ⟨none, some e, none⟩ img dir =
      ([.tarDir dir, .build ("localhost:5000/" ++ img), .push ("localhost:5000/" ++ img)],
        some (.wrap "failed to push image to cluster registry" e)) ∧
    pushImageToClusterRegistry ⟨none, none, some e⟩ img dir =
      ([.tarDir dir, .build ("localhost:5000/" ++ img), .push ("localhost:5000/" ++ img),
        .deleteImage ("localhost:5000/" ++ img)],
        some (.wrap "failed to delete image from local docker" e)) :=
  ⟨rfl, rfl, rfl, rfl⟩

/-! ## `Cluster.Delete` (cluster.go): aggregated teardown -/

/-- The two external calls a teardown issues. -/
inductive DeleteOp where
  | removeContainer (name : String)
  | providerDelete (name : String)
deriving DecidableEq, Repr

/-- Go `errors.Join`: `nil` when no error was collected, otherwise an
error holding every collected error in order. -/
def errorsJoin (errs : List Err) : Option (List Err) :=
  match errs with
  | [] => none
  | l => some l

/-- The closure stored in `Cluster.Delete`: remove the registry
container named `<name>-registry`, delete the cluster, collect the
wrapped failure of each step that failed, and join them.  Both calls are
always issued (first component), whatever either outcome is. -/
def clusterDelete (name : String) (removeRes deleteRes : Option Err) :
    List DeleteOp × Option (List Err) :=
  let registryName := name ++ "-registry"
  let errs : List Err := []
  let errs := match removeRes with
    | some e => errs ++ [.wrap "failed to remove registry container" e]
    | none => errs
  let errs := match deleteRes with
    | some e => errs ++ [.wrap "failed to delete cluster" e]
    | none => errs
  ([.removeContainer registryName, .providerDelete name], errorsJoin errs)

/-- C2: teardown always attempts both the registry removal and the
cluster deletion, whatever the outcomes; it returns success when
neither fails, exactly the one wrapped failure when one fails, and both
wrapped failures (registry first) when both fail. -/
theorem clusterDelete_aggregates (name : String) (removeRes deleteRes : Option Err) :
    (clusterDelete name removeRes deleteRes).1 =
      [.removeContainer (name ++ "-registry"), .providerDelete name] ∧
    (clusterDelete name none none).2 = none ∧
    (∀ e, (clusterDelete name (some e) none).2 =
      some [.wrap "failed to remove registry container" e]) ∧
    (∀ e, (clusterDelete name none (some e)).2 =
      some [.wrap "failed to delete cluster" e]) ∧
    (∀ e1 e2, (clusterDelete name (some e1) (some e2)).2 =
      some [.wrap "failed to remove registry container" e1,
            .wrap "failed to delete cluster" e2]) := by
  refine ⟨?_, rfl, fun e => rfl, fun e => rfl, fun e1 e2 => rfl⟩
  cases removeRes <;> cases deleteRes <;> rfl

/-! ## `NewCluster` / `createRegistryInNetwork` (cluster.go)

The mutable state the two independently-lifecycled external systems
expose is modelled explicitly: the clusters the kind provider knows, the
Docker containers that exist (by name), and the scratch files currently
on disk.  Everything else an external call can decide — errors, returned
values — sits in an environment. -/

/-- Host state shared by the provisioning engine and the container
runtime. -/
structure World where
  clusters : List String
  containers : List String
  tempFiles : List String
deriving DecidableEq, Repr

/-- The external calls `NewCluster` and `createRegistryInNetwork` can
issue, in the order they appear in a trace. -/
inductive Op where
  | providerList
  | providerKubeConfig (name : String)
  | parseTemplate
  | createTemp
  | templateExecute
  | osRemove (path : String)
  | providerCreate (name : String)
  | restConfig
  | newClientset
  | pullImage (ref : String)
  | containerInspect (name : String)
  | createContainer (name : String) (image : String)
  | getNetworks (name : String)
  | attachNetwork (id : String) (net : String)
  | startContainer (id : String)
deriving DecidableEq, Repr

/-- Outcomes of the external calls that are not determined by the world
state.  `none` in an error field means that call succeeds. -/
structure Env where
  listErr : Option Err
  kubeConfigRes : Except Err String
  parseErr : Option Err
  createTempRes : Except Err String
  executeErr : Option Err
  createErr : Option Err
  restConfigErr : Option Err
  clientsetErr : Option Err
  pullErr : Option Err
  inspectErr : Option Err
  createContainerRes : Except Err String
  networksRes : Except Err (List String)
  attachErr : Option Err
  startErr : Option Err

/-- A Go call's result: a value, a returned error, or a runtime panic
(which no `error` return can carry). -/
inductive Outcome (α : Type) where
  | ok (a : α)
  | err (e : Err)
  | panicked (m : String)
deriving DecidableEq, Repr

/-- The `Cluster` value `NewCluster` hands back (the bound clientset is
out of scope here). -/
structure ClusterHandle where
  name : String
  kubeconfig : String
deriving DecidableEq, Repr

/-- `writeOutConfigTemplate(address)`: parse the embedded template,
create a scratch file, execute the template into it, and return its
path.  The scratch file exists as soon as `os.CreateTemp` succeeds —
note that a subsequent `Execute` failure returns without removing it. -/
def writeOutConfigTemplate (env : Env) (w : World) :
    List Op × World × Except Err String :=
  match env.parseErr with
  | some e => ([.parseTemplate], w, .error (.wrap "failed to parse config template" e))
  | none =>
    match env.createTempRes with
    | .error e => ([.parseTemplate, .createTemp], w,
        .error (.wrap "failed to create temp file" e))
    | .ok path =>
      let w := { w with tempFiles := w.tempFiles ++ [path] }
      match env.executeErr with
      | some e => ([.parseTemplate, .createTemp, .templateExecute], w,
          .error (.wrap "failed to execute config template" e))
      | none => ([.parseTemplate, .createTemp, .templateExecute], w, .ok path)

/-- `os.Remove(path)` on the scratch directory. -/
def osRemoveFile (w : World) (path : String) : World :=
  { w with tempFiles := w.tempFiles.filter (· ≠ path) }

/-- `createRegistryInNetwork(ctx, clusterName)`: pull `registry:2`,
return early if `<clusterName>-registry` already exists, otherwise
create it, inspect the networks of `<clusterName>-control-plane`, take
the FIRST network of the returned list — an unguarded `[0]` index that
panics when the list is empty — attach the registry to it and start
it. -/
def createRegistryInNetwork (env : Env) (w : World) (clusterName : String) :
    List Op × World × Outcome Unit :=
  match env.pullErr with
  | some e => ([.pullImage "registry:2"], w, .err (.wrap "failed to pull registry image" e))
  | none =>
    let registryContainerName := clusterName ++ "-registry"
    match env.inspectErr with
    | some e => ([.pullImage "registry:2", .containerInspect registryContainerName], w,
        .err (.wrap "failed to check if registry container exists" e))
    | none =>
      if registryContainerName ∈ w.containers then
        ([.pullImage "registry:2", .containerInspect registryContainerName], w, .ok ())
      else
        match env.createContainerRes with
        | .error e => ([.pullImage "registry:2", .containerInspect registryContainerName,
            .createContainer registryContainerName "registry:2"], w,
            .err (.wrap "failed to create registry container" e))
        | .ok registryContainerID =>
          let w := { w with containers := w.containers ++ [registryContainerName] }
          let clusterControlPlaneNodeName := clusterName ++ "-control-plane"
          let tr := [Op.pullImage "registry:2", .containerInspect registryContainerName,
            .createContainer registryContainerName "registry:2",
            .getNetworks clusterControlPlaneNodeName]
          match env.networksRes with
          | .error e => (tr, w, .err (.wrap "failed to get container networks" e))
          | .ok [] => (tr, w, .panicked "runtime error: index out of range [0] with length 0")
          | .ok (clusterNetwork :: _) =>
            match env.attachErr with
            | some e => (tr ++ [.attachNetwork registryContainerID clusterNetwork], w,
                .err (.wrap "failed to attach registry container to network" e))
            | none =>
              match env.startErr with
              | some e => (tr ++ [.attachNetwork registryContainerID clusterNetwork,
                  .startContainer registryContainerID], w,
                  .err (.wrap "failed to start registry container" e))
              | none => (tr ++ [.attachNetwork registryContainerID clusterNetwork,
                  .startContainer registryContainerID], w, .ok ())

/-- The tail of `NewCluster` after the kubeconfig is resolved: build the
REST config and the clientset, then reconcile the registry. -/
def newClusterAfterCreds (env : Env) (w : World) (name kubeconfig : String)
    (tr : List Op) : List Op × World × Outcome ClusterHandle :=
  match env.restConfigErr with
  | some e => (tr ++ [.restConfig], w, .err (.wrap "failed to create client config" e))
  | none =>
    match env.clientsetErr with
    | some e => (tr ++ [.restConfig, .newClientset], w,
        .err (.wrap "failed to create clientset" e))
    | none =>
      let r := createRegistryInNetwork env w name
      (tr ++ [.restConfig, .newClientset] ++ r.1, r.2.1,
        match r.2.2 with
        | .ok _ => .ok ⟨name, kubeconfig⟩
        | .err e => .err (.wrap "failed to create registry in network" e)
        | .panicked m => .panicked m)

/-- The `defer os.Remove(configFilePath)` registered in the fresh
branch: it runs on every exit after registration — success, error
return, and panic unwinding alike. -/
def finishRemove (path : String) (tr : List Op) (w : World)
    (r : Outcome ClusterHandle) : List Op × World × Outcome ClusterHandle :=
  (tr ++ [.osRemove path], osRemoveFile w path, r)

/-- The fresh-creation branch of `NewCluster`: write the transient
config (no removal is deferred when that itself fails), create the
cluster against it, fetch the kubeconfig, then continue; the deferred
`os.Remove` fires on every exit after a successful write. -/
def newClusterFresh (env : Env) (w : World) (name : String) (tr : List Op) :
    List Op × World × Outcome ClusterHandle :=
  let wres := writeOutConfigTemplate env w
  match wres.2.2 with
  | .error e => (tr ++ wres.1, wres.2.1,
      .err (.wrap "failed to write out config template" e))
  | .ok configFilePath =>
    match env.createErr with
    | some e => finishRemove configFilePath (tr ++ wres.1 ++ [.providerCreate name])
        wres.2.1 (.err (.wrap "failed to create cluster" e))
    | none =>
      let w2 := { wres.2.1 with clusters := wres.2.1.clusters ++ [name] }
      match env.kubeConfigRes with
      | .error e => finishRemove configFilePath
          (tr ++ wres.1 ++ [.providerCreate name, .providerKubeConfig name]) w2
          (.err (.wrap "failed to get kubeconfig" e))
      | .ok kubeconfig =>
        let r := newClusterAfterCreds env w2 name kubeconfig
          (tr ++ wres.1 ++ [.providerCreate name, .providerKubeConfig name])
        finishRemove configFilePath r.1 r.2.1 r.2.2

/-- `NewCluster(ctx, name, timeout)`: list the known clusters; if `name`
is among them fetch its kubeconfig, otherwise (or when the fetched
document is empty) run the fresh-creation branch; in either case build
the client and reconcile the registry. -/
def newCluster (env : Env) (w : World) (name : String) :
    List Op × World × Outcome ClusterHandle :=
  match env.listErr with
  | some e => ([.providerList], w, .err (.wrap "failed to list clusters" e))
  | none =>
    if name ∈ w.clusters then
      match env.kubeConfigRes with
      | .error e => ([.providerList, .providerKubeConfig name], w,
          .err (.wrap "failed to get kubeconfig" e))
      | .ok kubeconfig =>
        if kubeconfig = "" then
          newClusterFresh env w name [.providerList, .providerKubeConfig name]
        else
          newClusterAfterCreds env w name kubeconfig [.providerList, .providerKubeConfig name]
    else
      newClusterFresh env w name [.providerList]

/-- The environment in which every external call succeeds: the provider
returns a non-empty kubeconfig document, the scratch file lands at a
fixed path, and the control-plane node sits on the `kind` network. -/
def happyEnv : Env where
  listErr := none
  kubeConfigRes := .ok "kubeconfig-data"
  parseErr := none
  createTempRes := .ok "/tmp/kind-config-1.yaml"
  executeErr := none
  createErr := none
  restConfigErr := none
  clientsetErr := none
  pullErr := none
  inspectErr := none
  createContainerRes := .ok "registry-cid"
  networksRes := .ok ["kind"]
  attachErr := none
  startErr := none

/-- The happy environment except that inspecting the control-plane
node's networks returns an empty list. -/
def emptyNetworksEnv : Env := { happyEnv with networksRes := .ok [] }

/-- The happy environment except that executing the config template
into the scratch file fails. -/
def execFailEnv : Env := { happyEnv with executeErr := some (.msg "template execution failed") }

/-- C1 (counter-evidence): with the registry container absent and the
network inspection of `test-control-plane` returning an empty list,
`createRegistryInNetwork` does not return a `NetworkDiscoveryError` —
the unguarded `clusterNetworks[0]` access panics. -/
theorem createRegistryInNetwork_empty_networks_panics :
    (createRegistryInNetwork emptyNetworksEnv ⟨["test"], [], []⟩ "test").2.2 =
      .panicked "runtime error: index out of range [0] with length 0" := by decide

/-- Number of `provider.Create` calls in a trace. -/
def countClusterCreates (tr : List Op) : Nat :=
  (tr.filter fun o => match o with | .providerCreate _ => true | _ => false).length

/-- Number of `ContainerCreate` calls in a trace. -/
def countContainerCreates (tr : List Op) : Nat :=
  (tr.filter fun o => match o with | .createContainer _ _ => true | _ => false).length

/-- C3: provisioning a name not yet known issues exactly one cluster
creation and exactly one registry-container creation; running
`NewCluster` again on the resulting world issues zero of either — its
whole trace is the credential fetch, client construction, the pull, and
the existence check that returns early. -/
theorem newCluster_idempotent (name : String) (w : World)
    (h1 : name ∉ w.clusters) (h2 : name ++ "-registry" ∉ w.containers) :
    countClusterCreates (newCluster happyEnv w name).1 = 1 ∧
    countContainerCreates (newCluster happyEnv w name).1 = 1 ∧
    countClusterCreates (newCluster happyEnv (newCluster happyEnv w name).2.1 name).1 = 0 ∧
    countContainerCreates (newCluster happyEnv (newCluster happyEnv w name).2.1 name).1 = 0 ∧
    (newCluster happyEnv (newCluster happyEnv w name).2.1 name).1 =
      [.providerList, .providerKubeConfig name, .restConfig, .newClientset,
       .pullImage "registry:2", .containerInspect (name ++ "-registry")] := by
  have hrun1 : newCluster happyEnv w name =
      ([.providerList, .parseTemplate, .createTemp, .templateExecute,
        .providerCreate name, .providerKubeConfig name, .restConfig, .newClientset,
        .pullImage "registry:2", .containerInspect (name ++ "-registry"),
        .createContainer (name ++ "-registry") "registry:2",
        .getNetworks (name ++ "-control-plane"),
        .attachNetwork "registry-cid" "kind", .startContainer "registry-cid",
        .osRemove "/tmp/kind-config-1.yaml"],
       ⟨w.clusters ++ [name], w.containers ++ [name ++ "-registry"],
        (w.tempFiles ++ ["/tmp/kind-config-1.yaml"]).filter (· ≠ "/tmp/kind-config-1.yaml")⟩,
       .ok ⟨name, "kubeconfig-data"⟩) := by
    simp [newCluster, newClusterFresh, newClusterAfterCreds, createRegistryInNetwork,
          writeOutConfigTemplate, finishRemove, osRemoveFile, happyEnv, h1, h2]
  have hrun2 : newCluster happyEnv (newCluster happyEnv w name).2.1 name =
      ([.providerList, .providerKubeConfig name, .restConfig, .newClientset,
        .pullImage "registry:2", .containerInspect (name ++ "-registry")],
       ⟨w.clusters ++ [name], w.containers ++ [name ++ "-registry"],
        (w.tempFiles ++ ["/tmp/kind-config-1.yaml"]).filter (· ≠ "/tmp/kind-config-1.yaml")⟩,
       .ok ⟨name, "kubeconfig-data"⟩) := by
    rw [hrun1]
    simp [newCluster, newClusterAfterCreds, createRegistryInNetwork, happyEnv]
  rw [hrun2, hrun1]
  refine ⟨rfl, rfl, rfl, rfl, rfl⟩

theorem newCluster_idempotent_witness :
    countClusterCreates (newCluster happyEnv ⟨[], [], []⟩ "test").1 = 1 ∧
    countContainerCreates (newCluster happyEnv ⟨[], [], []⟩ "test").1 = 1 ∧
    countClusterCreates
      (newCluster happyEnv (newCluster happyEnv ⟨[], [], []⟩ "test").2.1 "test").1 = 0 ∧
    countContainerCreates
      (newCluster happyEnv (newCluster happyEnv ⟨[], [], []⟩ "test").2.1 "test").1 = 0 ∧
    (newCluster happyEnv (newCluster happyEnv ⟨[], [], []⟩ "test").2.1 "test").1 =
      [.providerList, .providerKubeConfig "test", .restConfig, .newClientset,
       .pullImage "registry:2", .containerInspect ("test" ++ "-registry")] :=
  newCluster_idempotent "test" ⟨[], [], []⟩ (by decide) (by decide)

/-- C7 (counter-evidence): when the template-writing step itself fails
after the scratch file was created (`Execute` fails), `NewCluster`
returns with the transient file still on disk — the removal is only
deferred after `writeOutConfigTemplate` has returned successfully.  On
the success path the file is removed. -/
theorem newCluster_temp_file_leak :
    (newCluster execFailEnv ⟨[], [], []⟩ "test").2.1.tempFiles = ["/tmp/kind-config-1.yaml"] ∧
    (newCluster execFailEnv ⟨[], [], []⟩ "test").2.2 =
      .err (.wrap "failed to write out config template"
        (.wrap "failed to execute config template" (.msg "template execution failed"))) ∧
    (newCluster happyEnv ⟨[], [], []⟩ "test").2.1.tempFiles = [] := by decide

end Kubicle
